import Mathlib

/-!
Verification of the dining-concierge core: the Lex dialog handler
(`src/lambda_functions/hw1-lf1.py`) and the SQS fulfillment worker
(`src/lambda_functions/hw1-lf2.py`), shallowly embedded as pure Lean
functions.  External effects (DynamoDB preference reads, SQS sends and
deletes, SES sends, OpenSearch queries, UUID generation, clock reads)
are threaded as explicit oracle inputs and explicit effect lists, in
program order.
-/

namespace LF1

/-- Python truthiness of an optional string: `None` and `""` are falsy. -/
def pyTruthy (o : Option String) : Bool :=
  match o with
  | none => false
  | some s => s != ""

/-- Models `(x or "")` on an optional string. -/
def pyOrEmpty (o : Option String) : String :=
  if pyTruthy o then o.getD "" else ""

/-- Python regex/str whitespace (space, tab, newline, return, vertical
tab, form feed). -/
def pyIsSpaceChar (c : Char) : Bool :=
  c == ' ' || c == '\t' || c == '\n' || c == '\r' || c == '\x0b' || c == '\x0c'

/-- Models Python `s.strip()`: drop whitespace from both ends. -/
def pyStrip (s : String) : String :=
  (((s.toList.dropWhile pyIsSpaceChar).reverse.dropWhile pyIsSpaceChar).reverse).asString

/-- Models Python `s.lower()` (ASCII case folding). -/
def pyLower (s : String) : String :=
  (s.toList.map Char.toLower).asString

/-- Models Python `int(s)` on a digit string. -/
def pyInt (s : String) : Nat :=
  s.toList.foldl (fun acc c => acc * 10 + (c.toNat - '0'.toNat)) 0

/-- Whether the character list starts with the given pattern. -/
def charsStartWith : List Char → List Char → Bool
  | _, [] => true
  | [], _ :: _ => false
  | c :: cs, p :: ps => c == p && charsStartWith cs ps

/-- Whether the pattern occurs as a contiguous run of the list. -/
def charsContain (s pat : List Char) : Bool :=
  match s with
  | [] => charsStartWith [] pat
  | c :: t => charsStartWith (c :: t) pat || charsContain t pat

/-- Models Python `pat in s` substring membership. -/
def strContains (s pat : String) : Bool :=
  charsContain s.toList pat.toList

/-- Models Python `s.isdigit()` for ASCII content. -/
def pyIsDigit (s : String) : Bool :=
  s != "" && s.toList.all Char.isDigit

/-- The `value` object inside a Lex V2 slot (`originalValue` /
`interpretedValue`; absent keys are `none`). -/
structure SlotVal where
  originalValue : Option String
  interpretedValue : Option String
  resolvedValues : List String
  deriving DecidableEq

/-- A Lex V2 slot object, i.e. a dict `\x7b"value": \x7b...\x7d\x7d`. -/
structure SlotObj where
  value : SlotVal
  deriving DecidableEq

/-- The intent's `slots` dict: names mapped to a slot object or `None`. -/
abbrev Slots := List (String × Option SlotObj)

/-- Dict lookup in the slots map (`slots.get(name)`); outer `none` means
the key is absent, `some none` means the key maps to `None`. -/
def slotsGet (slots : Slots) (name : String) : Option (Option SlotObj) :=
  (slots.find? (fun p => p.1 == name)).map (fun p => p.2)

/-- Dict assignment `slots[name] = v`: replaces the bound entry, or
appends the key when absent. -/
def slotsSet (slots : Slots) (name : String) (v : Option SlotObj) : Slots :=
  if slots.any (fun p => p.1 == name) then
    slots.map (fun p => if p.1 == name then (name, v) else p)
  else
    slots ++ [(name, v)]

/-- `slot_value` from hw1-lf1.py: interpretedValue if truthy, else
originalValue; `None`/missing slot gives `none`. -/
def slot_value (slots : Slots) (name : String) : Option String :=
  match slotsGet slots name with
  | none => none
  | some none => none
  | some (some slot) =>
      if pyTruthy slot.value.interpretedValue then slot.value.interpretedValue
      else slot.value.originalValue

/-- `make_slot` from hw1-lf1.py. -/
def make_slot (v : String) : SlotObj :=
  { value := { originalValue := some v, interpretedValue := some v,
               resolvedValues := [v] } }

/-- Session attributes: a string-to-string dict. -/
abbrev AttrMap := List (String × String)

/-- Dict `get` on session attributes. -/
def aget (m : AttrMap) (k : String) : Option String :=
  (m.find? (fun p => p.1 == k)).map (fun p => p.2)

/-- Dict assignment on session attributes. -/
def aset (m : AttrMap) (k v : String) : AttrMap :=
  if m.any (fun p => p.1 == k) then
    m.map (fun p => if p.1 == k then (k, v) else p)
  else
    m ++ [(k, v)]

/-- A stored preference record (`lastLocation` / `lastCuisine`), as the
DynamoDB item that `get_prefs` would return. -/
structure Pref where
  lastLocation : Option String
  lastCuisine : Option String
  deriving DecidableEq

/-- The dialog action type of a Lex response. -/
inductive DialogActionType
  | Close
  | ElicitSlot (slotToElicit : String)
  | Delegate
  deriving DecidableEq

/-- A Lex response as built by `close` / `elicit` / `delegate` /
`delegate_with_message` in hw1-lf1.py. -/
structure LexResponse where
  action : DialogActionType
  intentName : String
  slots : Slots
  intentState : String
  sessionAttributes : AttrMap
  messages : List String
  deriving DecidableEq

/-- The SQS payload built by the dialog handler. -/
structure DiningPayload where
  location : String
  cuisine : String
  diningTime : String
  partySize : String
  email : String
  requestId : String
  createdAt : String
  deriving DecidableEq

/-- Externally visible side effects of the dialog handler, in program
order: the preference upsert and the SQS send. -/
inductive Effect
  | savePrefs (sessionId location cuisine : String)
  | sendMessage (payload : DiningPayload)
  deriving DecidableEq

/-- `close` from hw1-lf1.py. -/
def close (intentName : String) (slots : Slots) (message : String)
    (sessionAttributes : AttrMap) : LexResponse :=
  { action := .Close, intentName := intentName, slots := slots,
    intentState := "Fulfilled", sessionAttributes := sessionAttributes,
    messages := [message] }

/-- `elicit` from hw1-lf1.py. -/
def elicit (intentName : String) (slots : Slots) (slotToElicit : String)
    (message : String) (sessionAttributes : AttrMap) : LexResponse :=
  { action := .ElicitSlot slotToElicit, intentName := intentName,
    slots := slots, intentState := "InProgress",
    sessionAttributes := sessionAttributes, messages := [message] }

/-- `delegate` from hw1-lf1.py. -/
def delegate (intentName : String) (slots : Slots)
    (sessionAttributes : AttrMap) : LexResponse :=
  { action := .Delegate, intentName := intentName, slots := slots,
    intentState := "InProgress", sessionAttributes := sessionAttributes,
    messages := [] }

/-- `delegate_with_message` from hw1-lf1.py. -/
def delegate_with_message (intentName : String) (slots : Slots)
    (message : String) (sessionAttributes : AttrMap) : LexResponse :=
  { action := .Delegate, intentName := intentName, slots := slots,
    intentState := "InProgress", sessionAttributes := sessionAttributes,
    messages := [message] }

/-- The inbound Lex event, flattened to the fields hw1-lf1.py reads. -/
structure LexEvent where
  intentName : String
  slots : Slots
  sessionAttributes : AttrMap
  invocationSource : Option String
  sessionId : Option String
  deriving DecidableEq

/-- `ALLOWED_CUISINES` from hw1-lf1.py. -/
def ALLOWED_CUISINES : List String :=
  ["chinese", "japanese", "italian", "mexican", "indpak", "korean",
   "thai", "vietnamese"]

/-- The location check of hw1-lf1.py line 158 (true when the slot is
invalid). -/
def locationInvalid (location : String) : Bool :=
  location != "" && !strContains (pyLower location) "manhattan" &&
    !strContains (pyLower location) "new york"

/-- The cuisine check of hw1-lf1.py line 161 (true when invalid). -/
def cuisineInvalid (cuisine : String) : Bool :=
  cuisine != "" && !(ALLOWED_CUISINES.contains (pyLower cuisine))

/-- The party-size check of hw1-lf1.py line 164 (true when invalid). -/
def partySizeInvalid (party_size : String) : Bool :=
  party_size != "" && (!pyIsDigit party_size ||
    pyInt party_size < 1 || pyInt party_size > 20)

/-- Full match against the email regex of hw1-lf1.py line 167, which
demands `local@rest` where `local` and `rest` are non-empty, avoid `@`
and whitespace, and `rest` holds an interior dot: the string carries
exactly one `@`, the part before it is non-empty, no character is
whitespace, and the part after it has a dot that is neither its first
nor its last character. -/
def emailMatches (s : String) : Bool :=
  let cs := s.toList
  let a := cs.takeWhile (fun c => c != '@')
  let r := (cs.dropWhile (fun c => c != '@')).drop 1
  cs.count '@' == 1 && a != [] && a.all (fun c => !pyIsSpaceChar c) &&
    r.all (fun c => !pyIsSpaceChar c) && ((r.drop 1).dropLast.contains '.')

/-- The email check of hw1-lf1.py line 167 (true when invalid). -/
def emailInvalid (email : String) : Bool :=
  email != "" && !emailMatches email

/-- Reads a slot through `slot_value`, defaults to `""`, and strips it,
as each validation line of hw1-lf1.py does. -/
def trimmedSlot (slots : Slots) (name : String) : String :=
  pyStrip (pyOrEmpty (slot_value slots name))

/-- The confirmation message of hw1-lf1.py lines 179 and 205. -/
def confirmMessage : String :=
  "You’re all set. I will send restaurant suggestions to your email shortly."

/-- The corrective message for an invalid cuisine (hw1-lf1.py line 162). -/
def cuisineErrorMessage : String :=
  "Please choose one of: Chinese, Japanese, Italian, Mexican, Korean, Thai, Indpak, Vietnamese."

/-- The corrective message for an invalid location (hw1-lf1.py line 159). -/
def locationErrorMessage : String :=
  "Sorry, I can only support Manhattan. Please provide a valid location."

/-- The preference pre-fill block of hw1-lf1.py lines 130-136: fill
`Location` then `Cuisine` from the stored preference when the incoming
slot is falsy; returns the updated slots and the two filled flags. -/
def prefill (slots : Slots) (pref : Option Pref) :
    Slots × Bool × Bool :=
  match pref with
  | none => (slots, false, false)
  | some p =>
      let step1 : Slots × Bool :=
        if !pyTruthy (slot_value slots "Location") && pyTruthy p.lastLocation then
          (slotsSet slots "Location" (some (make_slot (p.lastLocation.getD ""))), true)
        else (slots, false)
      let step2 : Slots × Bool :=
        if !pyTruthy (slot_value step1.1 "Cuisine") && pyTruthy p.lastCuisine then
          (slotsSet step1.1 "Cuisine" (some (make_slot (p.lastCuisine.getD ""))), true)
        else (step1.1, false)
      (step2.1, step1.2, step2.2)

/-- The guarded preprocessing of hw1-lf1.py line 125: pre-fill runs only
on a `DialogCodeHook` invocation with a truthy session id. -/
def preprocessResult (ev : LexEvent) (pref : Option Pref) :
    Slots × Bool × Bool :=
  if ev.invocationSource == some "DialogCodeHook" && pyTruthy ev.sessionId then
    prefill ev.slots pref
  else (ev.slots, false, false)

/-- Whether the preference-reuse branch fires (some slot was filled). -/
def reuseFires (ev : LexEvent) (pref : Option Pref) : Bool :=
  (preprocessResult ev pref).2.1 || (preprocessResult ev pref).2.2

/-- The "Reusing your last preferences (...)" message built at
hw1-lf1.py lines 139-146, from the pre-filled slots and flags. -/
def reuseMsg (ev : LexEvent) (pref : Option Pref) : String :=
  let pre := preprocessResult ev pref
  let parts : List String :=
    (if pre.2.1 then ["location: " ++ pyOrEmpty (slot_value pre.1 "Location")] else []) ++
    (if pre.2.2 then ["cuisine: " ++ pyOrEmpty (slot_value pre.1 "Cuisine")] else [])
  "Reusing your last preferences (" ++ String.intercalate ", " parts ++ ")."

/-- `lambda_handler` from hw1-lf1.py.  `pref` is what `get_prefs` would
return (failures already collapsed to `none`), `freshId` the generated
UUID and `nowIso` the clock reading.  Returns the Lex response and the
list of performed external effects in program order. -/
def lambda_handler (ev : LexEvent) (pref : Option Pref)
    (freshId nowIso : String) : LexResponse × List Effect :=
  let intentName := ev.intentName
  if intentName == "GreetingIntent" then
    (close intentName ev.slots "Hi there, how can I help?" ev.sessionAttributes, [])
  else if intentName == "ThankYouIntent" then
    (close intentName ev.slots "You\x27re welcome." ev.sessionAttributes, [])
  else if intentName != "DiningSuggestionsIntent" then
    (close intentName ev.slots "Sorry, I couldn\x27t understand that." ev.sessionAttributes, [])
  else
    let pre := preprocessResult ev pref
    let slots := pre.1
    if pre.2.1 || pre.2.2 then
      let reused_loc := pyOrEmpty (slot_value slots "Location")
      let reused_cui := pyOrEmpty (slot_value slots "Cuisine")
      let parts : List String :=
        (if pre.2.1 then ["location: " ++ reused_loc] else []) ++
        (if pre.2.2 then ["cuisine: " ++ reused_cui] else [])
      let msg := "Reusing your last preferences (" ++ String.intercalate ", " parts ++ ")."
      let session_attrs := aset ev.sessionAttributes "reused_notice" msg
      (delegate_with_message intentName slots msg session_attrs, [])
    else
      let session_attrs := ev.sessionAttributes
      let location := trimmedSlot slots "Location"
      let cuisine := trimmedSlot slots "Cuisine"
      let dining_time := trimmedSlot slots "DiningTime"
      let party_size := trimmedSlot slots "NumberOfPeople"
      let email := trimmedSlot slots "Email"
      if locationInvalid location then
        (elicit intentName slots "Location" locationErrorMessage session_attrs, [])
      else if cuisineInvalid cuisine then
        (elicit intentName slots "Cuisine" cuisineErrorMessage session_attrs, [])
      else if partySizeInvalid party_size then
        (elicit intentName slots "NumberOfPeople"
          "Please provide a party size between 1 and 20." session_attrs, [])
      else if emailInvalid email then
        (elicit intentName slots "Email"
          "Please provide a valid email address." session_attrs, [])
      else if !(location != "" && cuisine != "" && dining_time != "" &&
                party_size != "" && email != "") then
        (delegate intentName slots session_attrs, [])
      else if aget session_attrs "enqueued" == some "1" then
        (close intentName slots confirmMessage session_attrs, [])
      else
        let session_attrs := aset session_attrs "enqueued" "1"
        let payload : DiningPayload :=
          { location := location, cuisine := pyLower cuisine,
            diningTime := dining_time, partySize := party_size,
            email := email, requestId := freshId, createdAt := nowIso }
        let effs : List Effect :=
          (if pyTruthy ev.sessionId then
            [Effect.savePrefs (ev.sessionId.getD "") (pyLower location) (pyLower cuisine)]
           else []) ++ [Effect.sendMessage payload]
        (close intentName slots confirmMessage session_attrs, effs)

/-- Number of SQS submissions among a list of effects. -/
def countEnqueues (effs : List Effect) : Nat :=
  (effs.filter (fun e =>
    match e with
    | .sendMessage _ => true
    | _ => false)).length

end LF1

namespace LF2

open LF1 (pyTruthy)

/-- The parsed JSON body of a queue message, with the fields
hw1-lf2.py reads (absent keys are `none`). -/
structure WBody where
  location : Option String
  cuisine : Option String
  diningTime : Option String
  partySize : Option String
  email : Option String
  deriving DecidableEq

/-- A received SQS message: parsed body plus receipt handle. -/
structure WMsg where
  body : WBody
  receiptHandle : String
  deriving DecidableEq

/-- A catalog (DynamoDB) record, with the fields hw1-lf2.py reads. -/
structure Item where
  businessId : Option String
  name : Option String
  address : Option String
  rating : Option String
  review_count : Option String
  deriving DecidableEq

/-- `format_item` from hw1-lf2.py. -/
def format_item (it : Item) : String :=
  "- " ++ it.name.getD "Unknown" ++ " | " ++ it.address.getD "Unknown address" ++
    " | rating " ++ it.rating.getD "N/A" ++ " (" ++ it.review_count.getD "N/A" ++
    " reviews)"

/-- The `by_id` dict of `batch_get_restaurants`: items lacking a
`businessId` are dropped, and a later item with the same id overwrites
an earlier one, as a Python dict comprehension does. -/
def byId (items : List Item) (rid : String) : Option Item :=
  items.foldl (fun acc it => if it.businessId == some rid then some it else acc) none

/-- `batch_get_restaurants` from hw1-lf2.py, with the batch response
item list as the oracle: returns the found records in requested-id
order, silently skipping ids the catalog did not return. -/
def batch_get_restaurants (items : List Item) (ids : List String) : List Item :=
  ids.filterMap (byId items)

/-- Modelled from the spec: `random.sample(population, 3)` is Python
standard-library code absent from `src/`; the spec (§4.7 step 4)
requires a uniformly random sample of 3 distinct ids without
replacement, unbiased toward list order.  Modelled as choice, indexed
by a uniformly distributed seed, among all length-`k` sublists of the
population. -/
def pySample (population : List String) (k : Nat) (seed : Nat) : List String :=
  let combos := List.sublistsLen k population
  combos.getD (seed % combos.length) []

/-- Externally visible side effects of the worker, in program order. -/
inductive WEffect
  | sendEmail (recipient : String) (text : String)
  | deleteMessage (receiptHandle : String)
  deriving DecidableEq

/-- The outcome of one worker execution: idle poll, the
`InsufficientCandidates` failure raised at hw1-lf2.py line 95, a raised
notification-send failure, or success with the recipient used. -/
inductive WResult
  | noMessages
  | insufficientCandidates (got : Nat)
  | sendFailed
  | ok (recipient : String)
  deriving DecidableEq

/-- Returns `true` exactly on the `InsufficientCandidates` outcome. -/
def WResult.isInsufficient : WResult → Bool
  | .insufficientCandidates _ => true
  | _ => false

/-- The worker's oracle environment: the `TEST_RECIPIENT` variable
(`none` when unset), the messages `receive_message` returned, the ids
the OpenSearch query returned, the random seed, the items the DynamoDB
batch get returned, and whether the SES send succeeds. -/
structure WEnv where
  testRecipient : Option String
  messages : List WMsg
  queryIds : List String
  sampleSeed : Nat
  catalogItems : List Item
  sendOk : Bool
  deriving DecidableEq

/-- The result and effect trace of one worker execution. -/
structure WRun where
  result : WResult
  effects : List WEffect
  deriving DecidableEq

/-- The recipient computation of hw1-lf2.py line 90:
`(TEST_RECIPIENT or body.get("email", "")).strip()`. -/
def recipientOf (testRecipient : Option String) (body : WBody) : String :=
  LF1.pyStrip (if pyTruthy testRecipient then testRecipient.getD ""
   else body.email.getD "")

/-- The email body composed at hw1-lf2.py lines 106-111. -/
def emailText (cuisine party time_ location : String)
    (lines : List String) : String :=
  "Hello!\n\nHere are your " ++ cuisine ++ " suggestions in " ++ location ++
    " for " ++ party ++ " people at " ++ time_ ++ ":\n\n" ++
    String.intercalate "\n" lines ++ "\n\nEnjoy your meal!"

/-- `lambda_handler` from hw1-lf2.py over the oracle environment:
poll once, parse, query candidates, fail when fewer than 3, sample 3,
batch-get, compose, send, and delete only after a successful send. -/
def lambda_handler (env : WEnv) : WRun :=
  match env.messages with
  | [] => { result := .noMessages, effects := [] }
  | msg :: _ =>
      let body := msg.body
      let cuisine := LF1.pyStrip (LF1.pyLower (body.cuisine.getD ""))
      let party := LF1.pyStrip (body.partySize.getD "N/A")
      let time_ := LF1.pyStrip (body.diningTime.getD "N/A")
      let location := LF1.pyStrip (body.location.getD "Manhattan")
      let to_email := recipientOf env.testRecipient body
      let ids := env.queryIds
      if ids.length < 3 then
        { result := .insufficientCandidates ids.length, effects := [] }
      else
        let chosen := pySample ids 3 env.sampleSeed
        let items := batch_get_restaurants env.catalogItems chosen
        let lines := items.map format_item
        let text := emailText cuisine party time_ location lines
        if env.sendOk then
          { result := .ok to_email,
            effects := [.sendEmail to_email text, .deleteMessage msg.receiptHandle] }
        else
          { result := .sendFailed, effects := [.sendEmail to_email text] }

/-- The receipt handles deleted during a run. -/
def deletedReceipts (run : WRun) : List String :=
  run.effects.filterMap (fun e =>
    match e with
    | .deleteMessage r => some r
    | _ => none)

/-- The queue content after a run: the received messages minus those
whose receipt handle was deleted. -/
def remainingMessages (env : WEnv) : List WMsg :=
  env.messages.filter (fun m =>
    !((deletedReceipts (lambda_handler env)).contains m.receiptHandle))

/-- The ids the run samples (hw1-lf2.py line 97). -/
def chosenIds (env : WEnv) : List String :=
  pySample env.queryIds 3 env.sampleSeed

/-- The formatted lines of the found records (hw1-lf2.py line 104). -/
def emailLines (env : WEnv) : List String :=
  (batch_get_restaurants env.catalogItems (chosenIds env)).map format_item

end LF2

namespace Wit

open LF1 LF2

/-- Fully valid slots for an end-to-end dining request turn. -/
def fullSlots : Slots :=
  [("Location", some (make_slot "Manhattan")),
   ("Cuisine", some (make_slot "Japanese")),
   ("DiningTime", some (make_slot "7pm")),
   ("NumberOfPeople", some (make_slot "4")),
   ("Email", some (make_slot "a@b.com"))]

/-- A fresh fully-valid dining request event (no `enqueued` marker). -/
def evFull : LexEvent :=
  { intentName := "DiningSuggestionsIntent", slots := fullSlots,
    sessionAttributes := [], invocationSource := some "DialogCodeHook",
    sessionId := some "s1" }

/-- The same event after a successful enqueue (`enqueued = "1"`). -/
def evEnqueued : LexEvent :=
  { evFull with sessionAttributes := [("enqueued", "1")] }

/-- A preprocessing event with empty slots and `enqueued = "1"`. -/
def evPre : LexEvent :=
  { intentName := "DiningSuggestionsIntent", slots := [],
    sessionAttributes := [("enqueued", "1")],
    invocationSource := some "DialogCodeHook", sessionId := some "s1" }

/-- A preprocessing event with empty location/cuisine and an invalid
party size already present. -/
def evReuse : LexEvent :=
  { intentName := "DiningSuggestionsIntent",
    slots := [("NumberOfPeople", some (make_slot "999"))],
    sessionAttributes := [], invocationSource := some "DialogCodeHook",
    sessionId := some "s1" }

/-- The stored preference used in the reuse scenarios. -/
def prefMI : Pref := { lastLocation := some "Manhattan", lastCuisine := some "italian" }

/-- An event with an invalid location and an invalid cuisine. -/
def evBadLocCui : LexEvent :=
  { intentName := "DiningSuggestionsIntent",
    slots := [("Location", some (make_slot "Boston")),
              ("Cuisine", some (make_slot "sushi"))],
    sessionAttributes := [], invocationSource := none, sessionId := none }

/-- An event with a valid location and an invalid cuisine. -/
def evBadCui : LexEvent :=
  { intentName := "DiningSuggestionsIntent",
    slots := [("Location", some (make_slot "Manhattan")),
              ("Cuisine", some (make_slot "sushi"))],
    sessionAttributes := [], invocationSource := none, sessionId := none }

/-- A parsed queue message for the worker scenarios. -/
def bodyW : WBody :=
  { location := some "Manhattan", cuisine := some "Japanese",
    diningTime := some "7pm", partySize := some "4", email := some "a@b.com" }

/-- The queue message wrapping `bodyW`. -/
def msgW : WMsg := { body := bodyW, receiptHandle := "rh-1" }

/-- A worker environment in which the notification send fails. -/
def envSendFail : WEnv :=
  { testRecipient := none, messages := [msgW],
    queryIds := ["r1", "r2", "r3", "r4"], sampleSeed := 5,
    catalogItems := [], sendOk := false }

/-- A worker environment with ten distinct candidate ids. -/
def envTen : WEnv :=
  { testRecipient := none, messages := [msgW],
    queryIds := ["r1", "r2", "r3", "r4", "r5", "r6", "r7", "r8", "r9", "r10"],
    sampleSeed := 7, catalogItems := [], sendOk := true }

/-- A worker environment whose catalog returns no records. -/
def envEmptyCatalog : WEnv :=
  { testRecipient := none, messages := [msgW],
    queryIds := ["r1", "r2", "r3"], sampleSeed := 0,
    catalogItems := [], sendOk := true }

/-- A worker environment with `TEST_RECIPIENT` set to the empty string. -/
def envEmptyTest : WEnv :=
  { testRecipient := some "", messages := [msgW],
    queryIds := ["r1", "r2", "r3"], sampleSeed := 0,
    catalogItems := [], sendOk := true }

/-- A worker environment with `TEST_RECIPIENT` set and non-empty. -/
def envTestSet : WEnv :=
  { testRecipient := some "t@x.com", messages := [msgW],
    queryIds := ["r1", "r2", "r3"], sampleSeed := 0,
    catalogItems := [], sendOk := true }

end Wit

namespace LF1

theorem find?_map_set_self {β : Type} (l : List (String × β)) (k : String) (v : β)
    (h : l.any (fun p => p.1 == k) = true) :
    (l.map (fun p => if p.1 == k then (k, v) else p)).find? (fun p => p.1 == k)
      = some (k, v) := by
  induction l with
  | nil => simp at h
  | cons p l ih =>
      by_cases hp : (p.1 == k) = true
      · simp only [List.map_cons, hp, if_true]
        exact List.find?_cons_of_pos _ (by simp)
      · have hp' : (p.1 == k) = false := by simpa using hp
        have h' : l.any (fun p => p.1 == k) = true := by
          simpa [List.any_cons, hp'] using h
        simp only [List.map_cons, hp', if_false, Bool.false_eq_true]
        rw [List.find?_cons_of_neg _ (by simp [hp'])]
        exact ih h'

theorem find?_map_set_ne {β : Type} (l : List (String × β)) (k k' : String) (v : β)
    (h : (k == k') = false) :
    (l.map (fun p => if p.1 == k then (k, v) else p)).find? (fun p => p.1 == k')
      = l.find? (fun p => p.1 == k') := by
  induction l with
  | nil => rfl
  | cons p l ih =>
      by_cases hp : (p.1 == k) = true
      · have hpk : p.1 = k := by exact_mod_cast (beq_iff_eq ..).mp hp
        have hpk' : (p.1 == k') = false := by
          rw [hpk]; exact h
        simp only [List.map_cons, hp, if_true]
        rw [List.find?_cons_of_neg _ (by simp [h]),
            List.find?_cons_of_neg _ (by simp [hpk'])]
        exact ih
      · have hp' : (p.1 == k) = false := by simpa using hp
        simp only [List.map_cons, hp', if_false, Bool.false_eq_true]
        by_cases hq : (p.1 == k') = true
        · rw [List.find?_cons_of_pos _ (by simp [hq]),
              List.find?_cons_of_pos _ (by simp [hq])]
        · have hq' : (p.1 == k') = false := by simpa using hq
          rw [List.find?_cons_of_neg _ (by simp [hq']),
              List.find?_cons_of_neg _ (by simp [hq'])]
          exact ih

theorem find?_append_set {β : Type} (l : List (String × β)) (k : String) (v : β)
    (h : l.any (fun p => p.1 == k) = false) :
    (l ++ [(k, v)]).find? (fun p => p.1 == k) = some (k, v) := by
  induction l with
  | nil => exact List.find?_cons_of_pos _ (by simp)
  | cons p l ih =>
      rw [List.any_cons] at h
      have hp : (p.1 == k) = false := (Bool.or_eq_false_iff.mp h).1
      have h' : l.any (fun p => p.1 == k) = false := (Bool.or_eq_false_iff.mp h).2
      simp only [List.cons_append]
      rw [List.find?_cons_of_neg _ (by simp [hp])]
      exact ih h'

theorem find?_append_ne {β : Type} (l : List (String × β)) (k k' : String) (v : β)
    (h : (k == k') = false) :
    (l ++ [(k, v)]).find? (fun p => p.1 == k') = l.find? (fun p => p.1 == k') := by
  induction l with
  | nil =>
      simp only [List.nil_append]
      rw [List.find?_cons_of_neg _ (by simp [h])]
  | cons p l ih =>
      by_cases hq : (p.1 == k') = true
      · simp only [List.cons_append]
        rw [List.find?_cons_of_pos _ (by simp [hq]),
            List.find?_cons_of_pos _ (by simp [hq])]
      · have hq' : (p.1 == k') = false := by simpa using hq
        simp only [List.cons_append]
        rw [List.find?_cons_of_neg _ (by simp [hq']),
            List.find?_cons_of_neg _ (by simp [hq'])]
        exact ih

theorem slotsGet_slotsSet_self (slots : Slots) (n : String) (v : Option SlotObj) :
    slotsGet (slotsSet slots n v) n = some v := by
  unfold slotsGet slotsSet
  by_cases h : slots.any (fun p => p.1 == n) = true
  · rw [if_pos h, find?_map_set_self _ _ _ h]; rfl
  · rw [Bool.not_eq_true] at h
    rw [if_neg (by simp [h]), find?_append_set _ _ _ h]; rfl

theorem slotsGet_slotsSet_ne (slots : Slots) (n m : String) (v : Option SlotObj)
    (h : (n == m) = false) :
    slotsGet (slotsSet slots n v) m = slotsGet slots m := by
  unfold slotsGet slotsSet
  by_cases hh : slots.any (fun p => p.1 == n) = true
  · rw [if_pos hh, find?_map_set_ne _ _ _ _ h]
  · rw [Bool.not_eq_true] at hh
    rw [if_neg (by simp [hh]), find?_append_ne _ _ _ _ h]

theorem aget_aset_self (m : AttrMap) (k v : String) :
    aget (aset m k v) k = some v := by
  unfold aget aset
  by_cases h : m.any (fun p => p.1 == k) = true
  · rw [if_pos h, find?_map_set_self _ _ _ h]; rfl
  · rw [Bool.not_eq_true] at h
    rw [if_neg (by simp [h]), find?_append_set _ _ _ h]; rfl

theorem pyTruthy_getD_ne (o : Option String) (h : pyTruthy o = true) :
    o.getD "" ≠ "" := by
  cases o with
  | none => simp [pyTruthy] at h
  | some s => simpa [pyTruthy, bne_iff_ne] using h

theorem slot_value_slotsSet_make (slots : Slots) (n v : String) (hv : v ≠ "") :
    slot_value (slotsSet slots n (some (make_slot v))) n = some v := by
  unfold slot_value
  rw [slotsGet_slotsSet_self]
  simp [make_slot, pyTruthy, bne_iff_ne, hv]

theorem slot_value_slotsSet_ne (slots : Slots) (n m : String) (v : Option SlotObj)
    (h : (n == m) = false) :
    slot_value (slotsSet slots n v) m = slot_value slots m := by
  unfold slot_value
  rw [slotsGet_slotsSet_ne _ _ _ _ h]

theorem pyOrEmpty_strip_truthy (o : Option String)
    (h : pyStrip (pyOrEmpty o) ≠ "") : pyTruthy o = true := by
  by_cases ht : pyTruthy o = true
  · exact ht
  · rw [Bool.not_eq_true] at ht
    exact absurd (by simp [pyOrEmpty, ht]; decide) h

theorem prefill_noop (slots : Slots) (pref : Option Pref)
    (hL : pyTruthy (slot_value slots "Location") = true)
    (hC : pyTruthy (slot_value slots "Cuisine") = true) :
    prefill slots pref = (slots, false, false) := by
  cases pref with
  | none => rfl
  | some p => simp [prefill, hL, hC]

theorem preprocess_noop (ev : LexEvent) (pref : Option Pref)
    (hL : pyTruthy (slot_value ev.slots "Location") = true)
    (hC : pyTruthy (slot_value ev.slots "Cuisine") = true) :
    preprocessResult ev pref = (ev.slots, false, false) := by
  unfold preprocessResult
  split
  · exact prefill_noop _ _ hL hC
  · rfl

theorem prefill_nofire_slots (slots : Slots) (pref : Option Pref)
    (h : ((prefill slots pref).2.1 || (prefill slots pref).2.2) = false) :
    (prefill slots pref).1 = slots := by
  cases pref with
  | none => rfl
  | some p =>
      simp only [prefill] at h ⊢
      by_cases h1 : (!pyTruthy (slot_value slots "Location") && pyTruthy p.lastLocation) = true
      · simp [h1] at h
      · rw [Bool.not_eq_true] at h1
        simp only [h1, Bool.false_eq_true, if_false] at h ⊢
        by_cases h2 : (!pyTruthy (slot_value slots "Cuisine") && pyTruthy p.lastCuisine) = true
        · simp [h2] at h
        · rw [Bool.not_eq_true] at h2
          simp [h2]

theorem preprocess_nofire_slots (ev : LexEvent) (pref : Option Pref)
    (h : ((preprocessResult ev pref).2.1 || (preprocessResult ev pref).2.2) = false) :
    (preprocessResult ev pref).1 = ev.slots := by
  unfold preprocessResult at h ⊢
  split at h
  · rename_i hg
    rw [if_pos hg]
    exact prefill_nofire_slots _ _ h
  · rename_i hg
    rw [if_neg hg]

theorem handler_enqueued_eq (ev : LexEvent) (pref : Option Pref) (i n : String)
    (hintent : ev.intentName = "DiningSuggestionsIntent")
    (hLp : trimmedSlot ev.slots "Location" ≠ "")
    (hCp : trimmedSlot ev.slots "Cuisine" ≠ "")
    (hTp : trimmedSlot ev.slots "DiningTime" ≠ "")
    (hPp : trimmedSlot ev.slots "NumberOfPeople" ≠ "")
    (hEp : trimmedSlot ev.slots "Email" ≠ "")
    (hLv : locationInvalid (trimmedSlot ev.slots "Location") = false)
    (hCv : cuisineInvalid (trimmedSlot ev.slots "Cuisine") = false)
    (hPv : partySizeInvalid (trimmedSlot ev.slots "NumberOfPeople") = false)
    (hEv : emailInvalid (trimmedSlot ev.slots "Email") = false)
    (henq : aget ev.sessionAttributes "enqueued" = some "1") :
    lambda_handler ev pref i n =
      (close "DiningSuggestionsIntent" ev.slots confirmMessage ev.sessionAttributes, []) := by
  have hLt : pyTruthy (slot_value ev.slots "Location") = true :=
    pyOrEmpty_strip_truthy _ hLp
  have hCt : pyTruthy (slot_value ev.slots "Cuisine") = true :=
    pyOrEmpty_strip_truthy _ hCp
  have hpre := preprocess_noop ev pref hLt hCt
  have hb1 : (trimmedSlot ev.slots "Location" != "") = true := bne_iff_ne.mpr hLp
  have hb2 : (trimmedSlot ev.slots "Cuisine" != "") = true := bne_iff_ne.mpr hCp
  have hb3 : (trimmedSlot ev.slots "DiningTime" != "") = true := bne_iff_ne.mpr hTp
  have hb4 : (trimmedSlot ev.slots "NumberOfPeople" != "") = true := bne_iff_ne.mpr hPp
  have hb5 : (trimmedSlot ev.slots "Email" != "") = true := bne_iff_ne.mpr hEp
  simp [lambda_handler, hintent, hpre, hLv, hCv, hPv, hEv,
    hb1, hb2, hb3, hb4, hb5, henq]

theorem handler_fresh_eq (ev : LexEvent) (pref : Option Pref) (i n : String)
    (hintent : ev.intentName = "DiningSuggestionsIntent")
    (hLp : trimmedSlot ev.slots "Location" ≠ "")
    (hCp : trimmedSlot ev.slots "Cuisine" ≠ "")
    (hTp : trimmedSlot ev.slots "DiningTime" ≠ "")
    (hPp : trimmedSlot ev.slots "NumberOfPeople" ≠ "")
    (hEp : trimmedSlot ev.slots "Email" ≠ "")
    (hLv : locationInvalid (trimmedSlot ev.slots "Location") = false)
    (hCv : cuisineInvalid (trimmedSlot ev.slots "Cuisine") = false)
    (hPv : partySizeInvalid (trimmedSlot ev.slots "NumberOfPeople") = false)
    (hEv : emailInvalid (trimmedSlot ev.slots "Email") = false)
    (henq : aget ev.sessionAttributes "enqueued" = none) :
    lambda_handler ev pref i n =
      (close "DiningSuggestionsIntent" ev.slots confirmMessage
        (aset ev.sessionAttributes "enqueued" "1"),
       (if pyTruthy ev.sessionId then
          [Effect.savePrefs (ev.sessionId.getD "")
            (pyLower (trimmedSlot ev.slots "Location"))
            (pyLower (trimmedSlot ev.slots "Cuisine"))]
        else []) ++
        [Effect.sendMessage
          { location := trimmedSlot ev.slots "Location",
            cuisine := pyLower (trimmedSlot ev.slots "Cuisine"),
            diningTime := trimmedSlot ev.slots "DiningTime",
            partySize := trimmedSlot ev.slots "NumberOfPeople",
            email := trimmedSlot ev.slots "Email",
            requestId := i, createdAt := n }]) := by
  have hLt : pyTruthy (slot_value ev.slots "Location") = true :=
    pyOrEmpty_strip_truthy _ hLp
  have hCt : pyTruthy (slot_value ev.slots "Cuisine") = true :=
    pyOrEmpty_strip_truthy _ hCp
  have hpre := preprocess_noop ev pref hLt hCt
  have hb1 : (trimmedSlot ev.slots "Location" != "") = true := bne_iff_ne.mpr hLp
  have hb2 : (trimmedSlot ev.slots "Cuisine" != "") = true := bne_iff_ne.mpr hCp
  have hb3 : (trimmedSlot ev.slots "DiningTime" != "") = true := bne_iff_ne.mpr hTp
  have hb4 : (trimmedSlot ev.slots "NumberOfPeople" != "") = true := bne_iff_ne.mpr hPp
  have hb5 : (trimmedSlot ev.slots "Email" != "") = true := bne_iff_ne.mpr hEp
  simp [lambda_handler, hintent, hpre, hLv, hCv, hPv, hEv,
    hb1, hb2, hb3, hb4, hb5, henq]

theorem handler_reuse_branch (ev : LexEvent) (pref : Option Pref) (i n : String)
    (hintent : ev.intentName = "DiningSuggestionsIntent")
    (hfire : ((preprocessResult ev pref).2.1 || (preprocessResult ev pref).2.2) = true) :
    lambda_handler ev pref i n =
      (delegate_with_message "DiningSuggestionsIntent" (preprocessResult ev pref).1
        (reuseMsg ev pref)
        (aset ev.sessionAttributes "reused_notice" (reuseMsg ev pref)), []) := by
  simp [lambda_handler, reuseMsg, hintent, hfire]

theorem handler_no_effects_invalid_cuisine (ev : LexEvent) (pref : Option Pref)
    (i n : String)
    (hintent : ev.intentName = "DiningSuggestionsIntent")
    (hc : cuisineInvalid (trimmedSlot ev.slots "Cuisine") = true) :
    (lambda_handler ev pref i n).2 = [] := by
  unfold lambda_handler
  rw [hintent]
  by_cases hf : ((preprocessResult ev pref).2.1 || (preprocessResult ev pref).2.2) = true
  · simp [hf]
  · rw [Bool.not_eq_true] at hf
    have hs := preprocess_nofire_slots ev pref hf
    by_cases hl : locationInvalid (trimmedSlot (preprocessResult ev pref).1 "Location") = true
    · simp [hf, hl]
    · rw [Bool.not_eq_true] at hl
      have hc' : cuisineInvalid (trimmedSlot (preprocessResult ev pref).1 "Cuisine") = true := by
        rw [hs]; exact hc
      simp [hf, hl, hc']

theorem handler_cuisine_elicit (ev : LexEvent) (pref : Option Pref) (i n : String)
    (hintent : ev.intentName = "DiningSuggestionsIntent")
    (hf : reuseFires ev pref = false)
    (hl : locationInvalid (trimmedSlot ev.slots "Location") = false)
    (hc : cuisineInvalid (trimmedSlot ev.slots "Cuisine") = true) :
    lambda_handler ev pref i n =
      (elicit "DiningSuggestionsIntent" ev.slots "Cuisine" cuisineErrorMessage
        ev.sessionAttributes, []) := by
  unfold reuseFires at hf
  have hs := preprocess_nofire_slots ev pref hf
  unfold lambda_handler
  rw [hintent]
  simp [hf, hs, hl, hc]

theorem preprocess_fill_location (ev : LexEvent) (p : Pref)
    (hguard : (ev.invocationSource == some "DialogCodeHook" && pyTruthy ev.sessionId) = true)
    (hL : slot_value ev.slots "Location" = none)
    (hpl : pyTruthy p.lastLocation = true) :
    (preprocessResult ev (some p)).2.1 = true ∧
    slot_value (preprocessResult ev (some p)).1 "Location"
      = some (p.lastLocation.getD "") := by
  have hv : p.lastLocation.getD "" ≠ "" := pyTruthy_getD_ne _ hpl
  have hcond1 : (!pyTruthy (slot_value ev.slots "Location") && pyTruthy p.lastLocation)
      = true := by
    rw [hL, hpl]; rfl
  constructor
  · simp [preprocessResult, prefill, hguard, hcond1]
  · simp only [preprocessResult, prefill, hguard, if_true, hcond1]
    split
    · rw [slot_value_slotsSet_ne _ _ _ _ (by decide)]
      exact slot_value_slotsSet_make _ _ _ hv
    · exact slot_value_slotsSet_make _ _ _ hv

theorem preprocess_fill_both (ev : LexEvent) (p : Pref)
    (hguard : (ev.invocationSource == some "DialogCodeHook" && pyTruthy ev.sessionId) = true)
    (hL : slot_value ev.slots "Location" = none)
    (hC : slot_value ev.slots "Cuisine" = none)
    (hpl : pyTruthy p.lastLocation = true)
    (hpc : pyTruthy p.lastCuisine = true) :
    preprocessResult ev (some p) =
      (slotsSet (slotsSet ev.slots "Location" (some (make_slot (p.lastLocation.getD ""))))
        "Cuisine" (some (make_slot (p.lastCuisine.getD ""))), true, true) := by
  have hcond1 : (!pyTruthy (slot_value ev.slots "Location") && pyTruthy p.lastLocation)
      = true := by
    rw [hL, hpl]; rfl
  have e1 : slot_value
      (slotsSet ev.slots "Location" (some (make_slot (p.lastLocation.getD ""))))
      "Cuisine" = none := by
    rw [slot_value_slotsSet_ne _ _ _ _ (by decide)]; exact hC
  have hcond2 : (!pyTruthy (slot_value
      (slotsSet ev.slots "Location" (some (make_slot (p.lastLocation.getD ""))))
      "Cuisine") && pyTruthy p.lastCuisine) = true := by
    rw [e1, hpc]; rfl
  simp only [preprocessResult, prefill, hguard, if_true, hcond1]
  rw [hcond2]
  simp

end LF1

/-- C1: a DiningRequest turn whose session attributes hold
`enqueued = "1"` and whose slots are all present and valid returns
`Close` with the standard confirmation and performs no queue
submission; running the turn again from the returned state again
returns `Close`, with at most one submission across both calls. -/
theorem C1_enqueued_idempotent (ev : LF1.LexEvent) (pref pref2 : Option LF1.Pref)
    (i1 n1 i2 n2 : String)
    (hintent : ev.intentName = "DiningSuggestionsIntent")
    (hLp : LF1.trimmedSlot ev.slots "Location" ≠ "")
    (hCp : LF1.trimmedSlot ev.slots "Cuisine" ≠ "")
    (hTp : LF1.trimmedSlot ev.slots "DiningTime" ≠ "")
    (hPp : LF1.trimmedSlot ev.slots "NumberOfPeople" ≠ "")
    (hEp : LF1.trimmedSlot ev.slots "Email" ≠ "")
    (hLv : LF1.locationInvalid (LF1.trimmedSlot ev.slots "Location") = false)
    (hCv : LF1.cuisineInvalid (LF1.trimmedSlot ev.slots "Cuisine") = false)
    (hPv : LF1.partySizeInvalid (LF1.trimmedSlot ev.slots "NumberOfPeople") = false)
    (hEv : LF1.emailInvalid (LF1.trimmedSlot ev.slots "Email") = false)
    (henq : LF1.aget ev.sessionAttributes "enqueued" = some "1") :
    (LF1.lambda_handler ev pref i1 n1).1.action = LF1.DialogActionType.Close ∧
    (LF1.lambda_handler ev pref i1 n1).1.messages = [LF1.confirmMessage] ∧
    (LF1.lambda_handler ev pref i1 n1).2 = [] ∧
    (LF1.lambda_handler
      { ev with slots := (LF1.lambda_handler ev pref i1 n1).1.slots,
                sessionAttributes := (LF1.lambda_handler ev pref i1 n1).1.sessionAttributes }
      pref2 i2 n2).1.action = LF1.DialogActionType.Close ∧
    (LF1.lambda_handler
      { ev with slots := (LF1.lambda_handler ev pref i1 n1).1.slots,
                sessionAttributes := (LF1.lambda_handler ev pref i1 n1).1.sessionAttributes }
      pref2 i2 n2).1.messages = [LF1.confirmMessage] ∧
    LF1.countEnqueues ((LF1.lambda_handler ev pref i1 n1).2 ++
      (LF1.lambda_handler
        { ev with slots := (LF1.lambda_handler ev pref i1 n1).1.slots,
                  sessionAttributes := (LF1.lambda_handler ev pref i1 n1).1.sessionAttributes }
        pref2 i2 n2).2) ≤ 1 := by
  have h1 := LF1.handler_enqueued_eq ev pref i1 n1 hintent hLp hCp hTp hPp hEp
    hLv hCv hPv hEv henq
  have hev2 : { ev with slots := (LF1.lambda_handler ev pref i1 n1).1.slots,
                        sessionAttributes := (LF1.lambda_handler ev pref i1 n1).1.sessionAttributes }
      = ev := by
    rw [h1]; rfl
  have h2 := LF1.handler_enqueued_eq ev pref2 i2 n2 hintent hLp hCp hTp hPp hEp
    hLv hCv hPv hEv henq
  rw [hev2, h1, h2]
  refine ⟨rfl, rfl, rfl, rfl, rfl, ?_⟩
  simp [LF1.countEnqueues]

/-- Witness for C1 at a concrete fully-valid event with
`enqueued = "1"`. -/
theorem C1_enqueued_idempotent_witness :
    Wit.evEnqueued.intentName = "DiningSuggestionsIntent" ∧
    LF1.trimmedSlot Wit.evEnqueued.slots "Location" ≠ "" ∧
    LF1.aget Wit.evEnqueued.sessionAttributes "enqueued" = some "1" ∧
    ((LF1.lambda_handler Wit.evEnqueued none "u1" "t1").1.action = LF1.DialogActionType.Close ∧
     (LF1.lambda_handler Wit.evEnqueued none "u1" "t1").1.messages = [LF1.confirmMessage] ∧
     (LF1.lambda_handler Wit.evEnqueued none "u1" "t1").2 = [] ∧
     (LF1.lambda_handler Wit.evEnqueued none "u2" "t2").1.action = LF1.DialogActionType.Close ∧
     (LF1.lambda_handler Wit.evEnqueued none "u2" "t2").1.messages = [LF1.confirmMessage] ∧
     LF1.countEnqueues ((LF1.lambda_handler Wit.evEnqueued none "u1" "t1").2 ++
       (LF1.lambda_handler Wit.evEnqueued none "u2" "t2").2) ≤ 1) :=
  ⟨by decide, by decide, by decide,
   C1_enqueued_idempotent Wit.evEnqueued none none "u1" "t1" "u2" "t2"
     (by decide) (by decide) (by decide) (by decide) (by decide) (by decide)
     (by decide) (by decide) (by decide) (by decide) (by decide)⟩

/-- C4: a DiningRequest turn with slots Manhattan/Japanese/7pm/4/a@b.com
and no `enqueued` marker returns `Close` with the confirmation text and
enqueues exactly one payload whose cuisine is the lowercased
"japanese" and whose requestId is the freshly generated non-empty id. -/
theorem C4_fresh_enqueue (ev : LF1.LexEvent) (pref : Option LF1.Pref) (i n : String)
    (hintent : ev.intentName = "DiningSuggestionsIntent")
    (hL : LF1.slot_value ev.slots "Location" = some "Manhattan")
    (hC : LF1.slot_value ev.slots "Cuisine" = some "Japanese")
    (hT : LF1.slot_value ev.slots "DiningTime" = some "7pm")
    (hP : LF1.slot_value ev.slots "NumberOfPeople" = some "4")
    (hE : LF1.slot_value ev.slots "Email" = some "a@b.com")
    (henq : LF1.aget ev.sessionAttributes "enqueued" = none)
    (hid : i ≠ "") :
    (LF1.lambda_handler ev pref i n).1.action = LF1.DialogActionType.Close ∧
    (LF1.lambda_handler ev pref i n).1.messages = [LF1.confirmMessage] ∧
    LF1.countEnqueues (LF1.lambda_handler ev pref i n).2 = 1 ∧
    ∃ p : LF1.DiningPayload,
      LF1.Effect.sendMessage p ∈ (LF1.lambda_handler ev pref i n).2 ∧
      p.cuisine = "japanese" ∧ p.requestId = i ∧ p.requestId ≠ "" := by
  have tL : LF1.trimmedSlot ev.slots "Location" = "Manhattan" := by
    unfold LF1.trimmedSlot; rw [hL]; decide
  have tC : LF1.trimmedSlot ev.slots "Cuisine" = "Japanese" := by
    unfold LF1.trimmedSlot; rw [hC]; decide
  have tT : LF1.trimmedSlot ev.slots "DiningTime" = "7pm" := by
    unfold LF1.trimmedSlot; rw [hT]; decide
  have tP : LF1.trimmedSlot ev.slots "NumberOfPeople" = "4" := by
    unfold LF1.trimmedSlot; rw [hP]; decide
  have tE : LF1.trimmedSlot ev.slots "Email" = "a@b.com" := by
    unfold LF1.trimmedSlot; rw [hE]; decide
  have h1 := LF1.handler_fresh_eq ev pref i n hintent
    (by rw [tL]; decide) (by rw [tC]; decide) (by rw [tT]; decide)
    (by rw [tP]; decide) (by rw [tE]; decide)
    (by rw [tL]; decide) (by rw [tC]; decide) (by rw [tP]; decide)
    (by rw [tE]; decide) henq
  rw [tL, tC, tT, tP, tE] at h1
  refine ⟨by rw [h1]; rfl, by rw [h1]; rfl, ?_, ?_⟩
  · rw [h1]
    cases hs : LF1.pyTruthy ev.sessionId <;>
      simp [hs, LF1.countEnqueues]
  · refine ⟨{ location := "Manhattan", cuisine := LF1.pyLower "Japanese",
              diningTime := "7pm", partySize := "4", email := "a@b.com",
              requestId := i, createdAt := n }, ?_,
      (by decide : LF1.pyLower "Japanese" = "japanese"), rfl, hid⟩
    rw [h1]
    exact List.mem_append_right _ (List.mem_singleton_self _)

/-- Witness for C4 at a concrete fresh fully-valid event. -/
theorem C4_fresh_enqueue_witness :
    Wit.evFull.intentName = "DiningSuggestionsIntent" ∧
    LF1.slot_value Wit.evFull.slots "Location" = some "Manhattan" ∧
    LF1.aget Wit.evFull.sessionAttributes "enqueued" = none ∧
    "uuid-1" ≠ "" ∧
    ((LF1.lambda_handler Wit.evFull none "uuid-1" "t1").1.action = LF1.DialogActionType.Close ∧
     (LF1.lambda_handler Wit.evFull none "uuid-1" "t1").1.messages = [LF1.confirmMessage] ∧
     LF1.countEnqueues (LF1.lambda_handler Wit.evFull none "uuid-1" "t1").2 = 1 ∧
     ∃ p : LF1.DiningPayload,
       LF1.Effect.sendMessage p ∈ (LF1.lambda_handler Wit.evFull none "uuid-1" "t1").2 ∧
       p.cuisine = "japanese" ∧ p.requestId = "uuid-1" ∧ p.requestId ≠ "") :=
  ⟨by decide, by decide, by decide, by decide,
   C4_fresh_enqueue Wit.evFull none "uuid-1" "t1" (by decide) (by decide)
     (by decide) (by decide) (by decide) (by decide) (by decide) (by decide)⟩

/-- C9: reading slot `n` back from a slots map in which `n` was just
bound to `make_slot v` returns exactly `v`, for any non-empty `v`. -/
theorem C9_slot_roundtrip (slots : LF1.Slots) (n v : String) (hv : v ≠ "") :
    LF1.slot_value (LF1.slotsSet slots n (some (LF1.make_slot v))) n = some v :=
  LF1.slot_value_slotsSet_make slots n v hv

/-- Witness for C9 at a concrete slot name and value. -/
theorem C9_slot_roundtrip_witness :
    "Manhattan" ≠ "" ∧
    LF1.slot_value (LF1.slotsSet [] "Location" (some (LF1.make_slot "Manhattan")))
      "Location" = some "Manhattan" :=
  ⟨by decide, C9_slot_roundtrip [] "Location" "Manhattan" (by decide)⟩

/-- C5 counterexample: on a DialogCodeHook DiningRequest turn whose
session attributes already hold `enqueued = "1"`, the preference
pre-fill still occurs — the initially unset Location slot comes back
populated from the stored preference and the turn returns `Delegate` —
contradicting the claim that no lookup or pre-fill happens when
`enqueued = "1"`. -/
theorem C5_counterexample :
    LF1.aget Wit.evPre.sessionAttributes "enqueued" = some "1" ∧
    LF1.slot_value Wit.evPre.slots "Location" = none ∧
    (LF1.lambda_handler Wit.evPre (some Wit.prefMI) "u" "t").1.action
      = LF1.DialogActionType.Delegate ∧
    LF1.slot_value ((LF1.lambda_handler Wit.evPre (some Wit.prefMI) "u" "t").1.slots)
      "Location" = some "Manhattan" := by
  decide

/-- C5 (amended): the preference lookup and pre-fill step runs on every
DialogCodeHook DiningRequest turn with a truthy sessionId, with no
condition on `enqueued`: whenever a stored preference exists and the
Location slot is unset, the slot is filled and `Delegate` is returned,
whatever the session attributes hold. -/
theorem C5_prefill_ignores_enqueued (ev : LF1.LexEvent) (p : LF1.Pref) (i n : String)
    (hintent : ev.intentName = "DiningSuggestionsIntent")
    (hsrc : ev.invocationSource = some "DialogCodeHook")
    (hsid : LF1.pyTruthy ev.sessionId = true)
    (hL : LF1.slot_value ev.slots "Location" = none)
    (hpl : LF1.pyTruthy p.lastLocation = true) :
    (LF1.lambda_handler ev (some p) i n).1.action = LF1.DialogActionType.Delegate ∧
    LF1.slot_value ((LF1.lambda_handler ev (some p) i n).1.slots) "Location"
      = some (p.lastLocation.getD "") := by
  have hguard : (ev.invocationSource == some "DialogCodeHook" &&
      LF1.pyTruthy ev.sessionId) = true := by
    rw [hsrc, hsid]; rfl
  obtain ⟨hfl, hsv⟩ := LF1.preprocess_fill_location ev p hguard hL hpl
  have hfire : ((LF1.preprocessResult ev (some p)).2.1 ||
      (LF1.preprocessResult ev (some p)).2.2) = true := by
    rw [hfl]; rfl
  have hmain := LF1.handler_reuse_branch ev (some p) i n hintent hfire
  rw [hmain]
  exact ⟨rfl, hsv⟩

/-- Witness for the amended C5 at a concrete turn with
`enqueued = "1"`. -/
theorem C5_prefill_ignores_enqueued_witness :
    Wit.evPre.intentName = "DiningSuggestionsIntent" ∧
    Wit.evPre.invocationSource = some "DialogCodeHook" ∧
    LF1.pyTruthy Wit.evPre.sessionId = true ∧
    LF1.slot_value Wit.evPre.slots "Location" = none ∧
    LF1.pyTruthy Wit.prefMI.lastLocation = true ∧
    ((LF1.lambda_handler Wit.evPre (some Wit.prefMI) "u" "t").1.action
       = LF1.DialogActionType.Delegate ∧
     LF1.slot_value ((LF1.lambda_handler Wit.evPre (some Wit.prefMI) "u" "t").1.slots)
       "Location" = some (Wit.prefMI.lastLocation.getD "")) :=
  ⟨by decide, by decide, by decide, by decide, by decide,
   C5_prefill_ignores_enqueued Wit.evPre Wit.prefMI "u" "t"
     (by decide) (by decide) (by decide) (by decide) (by decide)⟩

/-- C6: a DialogCodeHook DiningRequest turn whose stored preference is
Manhattan/italian and whose Location and Cuisine slots are unset
returns `Delegate` carrying the reuse message (naming both values),
stores that message under the `reused_notice` session attribute, and
leaves both slots populated — with all other slots arbitrary, so the
reuse branch pre-empts slot validation on the same turn. -/
theorem C6_pref_reuse (ev : LF1.LexEvent) (i n : String)
    (hintent : ev.intentName = "DiningSuggestionsIntent")
    (hsrc : ev.invocationSource = some "DialogCodeHook")
    (hsid : LF1.pyTruthy ev.sessionId = true)
    (hL : LF1.slot_value ev.slots "Location" = none)
    (hC : LF1.slot_value ev.slots "Cuisine" = none) :
    (LF1.lambda_handler ev (some Wit.prefMI) i n).1.action
      = LF1.DialogActionType.Delegate ∧
    (LF1.lambda_handler ev (some Wit.prefMI) i n).1.messages
      = ["Reusing your last preferences (location: Manhattan, cuisine: italian)."] ∧
    LF1.strContains
      "Reusing your last preferences (location: Manhattan, cuisine: italian)."
      "Manhattan" = true ∧
    LF1.strContains
      "Reusing your last preferences (location: Manhattan, cuisine: italian)."
      "italian" = true ∧
    LF1.aget ((LF1.lambda_handler ev (some Wit.prefMI) i n).1.sessionAttributes)
      "reused_notice"
      = some "Reusing your last preferences (location: Manhattan, cuisine: italian)." ∧
    LF1.slot_value ((LF1.lambda_handler ev (some Wit.prefMI) i n).1.slots) "Location"
      = some "Manhattan" ∧
    LF1.slot_value ((LF1.lambda_handler ev (some Wit.prefMI) i n).1.slots) "Cuisine"
      = some "italian" := by
  have hguard : (ev.invocationSource == some "DialogCodeHook" &&
      LF1.pyTruthy ev.sessionId) = true := by
    rw [hsrc, hsid]; rfl
  have hpre := LF1.preprocess_fill_both ev Wit.prefMI hguard hL hC
    (by decide) (by decide)
  have hgl : Wit.prefMI.lastLocation.getD "" = "Manhattan" := rfl
  have hgc : Wit.prefMI.lastCuisine.getD "" = "italian" := rfl
  rw [hgl, hgc] at hpre
  have vC : LF1.slot_value
      (LF1.slotsSet (LF1.slotsSet ev.slots "Location" (some (LF1.make_slot "Manhattan")))
        "Cuisine" (some (LF1.make_slot "italian"))) "Cuisine" = some "italian" :=
    LF1.slot_value_slotsSet_make _ _ _ (by decide)
  have vL : LF1.slot_value
      (LF1.slotsSet (LF1.slotsSet ev.slots "Location" (some (LF1.make_slot "Manhattan")))
        "Cuisine" (some (LF1.make_slot "italian"))) "Location" = some "Manhattan" := by
    rw [LF1.slot_value_slotsSet_ne _ _ _ _ (by decide)]
    exact LF1.slot_value_slotsSet_make _ _ _ (by decide)
  have hfire : ((LF1.preprocessResult ev (some Wit.prefMI)).2.1 ||
      (LF1.preprocessResult ev (some Wit.prefMI)).2.2) = true := by
    rw [hpre]; rfl
  have hmain := LF1.handler_reuse_branch ev (some Wit.prefMI) i n hintent hfire
  have hmsg : LF1.reuseMsg ev (some Wit.prefMI)
      = "Reusing your last preferences (location: Manhattan, cuisine: italian)." := by
    unfold LF1.reuseMsg
    rw [hpre]
    simp [vL, vC, LF1.pyOrEmpty, LF1.pyTruthy]
    decide
  refine ⟨by rw [hmain]; rfl, ?_, by decide, by decide, ?_, ?_, ?_⟩
  · rw [hmain]
    simp [LF1.delegate_with_message, hmsg]
  · rw [hmain]
    simp [LF1.delegate_with_message, LF1.aget_aset_self, hmsg]
  · rw [hmain]
    simp only [LF1.delegate_with_message]
    rw [hpre]
    exact vL
  · rw [hmain]
    simp only [LF1.delegate_with_message]
    rw [hpre]
    exact vC

/-- Witness for C6 at a concrete turn that also carries an invalid
party-size slot, showing the reuse branch pre-empts validation. -/
theorem C6_pref_reuse_witness :
    Wit.evReuse.intentName = "DiningSuggestionsIntent" ∧
    Wit.evReuse.invocationSource = some "DialogCodeHook" ∧
    LF1.pyTruthy Wit.evReuse.sessionId = true ∧
    LF1.slot_value Wit.evReuse.slots "Location" = none ∧
    LF1.slot_value Wit.evReuse.slots "Cuisine" = none ∧
    ((LF1.lambda_handler Wit.evReuse (some Wit.prefMI) "u" "t").1.action
       = LF1.DialogActionType.Delegate ∧
     (LF1.lambda_handler Wit.evReuse (some Wit.prefMI) "u" "t").1.messages
       = ["Reusing your last preferences (location: Manhattan, cuisine: italian)."] ∧
     LF1.strContains
       "Reusing your last preferences (location: Manhattan, cuisine: italian)."
       "Manhattan" = true ∧
     LF1.strContains
       "Reusing your last preferences (location: Manhattan, cuisine: italian)."
       "italian" = true ∧
     LF1.aget ((LF1.lambda_handler Wit.evReuse (some Wit.prefMI) "u" "t").1.sessionAttributes)
       "reused_notice"
       = some "Reusing your last preferences (location: Manhattan, cuisine: italian)." ∧
     LF1.slot_value ((LF1.lambda_handler Wit.evReuse (some Wit.prefMI) "u" "t").1.slots)
       "Location" = some "Manhattan" ∧
     LF1.slot_value ((LF1.lambda_handler Wit.evReuse (some Wit.prefMI) "u" "t").1.slots)
       "Cuisine" = some "italian") :=
  ⟨by decide, by decide, by decide, by decide, by decide,
   C6_pref_reuse Wit.evReuse "u" "t"
     (by decide) (by decide) (by decide) (by decide) (by decide)⟩

/-- C7 counterexample: a turn whose cuisine slot is non-empty and
invalid but whose location slot is also invalid returns `ElicitSlot`
for Location, not for Cuisine — location is validated first, so the
claim's unconditional `ElicitSlot cuisine` is false. -/
theorem C7_counterexample :
    LF1.trimmedSlot Wit.evBadLocCui.slots "Cuisine" ≠ "" ∧
    LF1.cuisineInvalid (LF1.trimmedSlot Wit.evBadLocCui.slots "Cuisine") = true ∧
    (LF1.lambda_handler Wit.evBadLocCui none "u" "t").1.action
      = LF1.DialogActionType.ElicitSlot "Location" ∧
    (LF1.lambda_handler Wit.evBadLocCui none "u" "t").1.action
      ≠ LF1.DialogActionType.ElicitSlot "Cuisine" := by
  decide

/-- C7 (amended): on a DiningRequest turn with a non-empty invalid
cuisine value the handler performs no queue submission; and if
additionally the preference-reuse branch does not fire and the
location slot passes validation, the turn returns `ElicitSlot` for
Cuisine with the corrective message listing the allowed cuisines. -/
theorem C7_invalid_cuisine (ev : LF1.LexEvent) (pref : Option LF1.Pref) (i n : String)
    (hintent : ev.intentName = "DiningSuggestionsIntent")
    (hc : LF1.cuisineInvalid (LF1.trimmedSlot ev.slots "Cuisine") = true) :
    LF1.countEnqueues (LF1.lambda_handler ev pref i n).2 = 0 ∧
    (LF1.reuseFires ev pref = false →
      LF1.locationInvalid (LF1.trimmedSlot ev.slots "Location") = false →
      (LF1.lambda_handler ev pref i n).1.action
        = LF1.DialogActionType.ElicitSlot "Cuisine" ∧
      (LF1.lambda_handler ev pref i n).1.messages = [LF1.cuisineErrorMessage]) := by
  constructor
  · rw [LF1.handler_no_effects_invalid_cuisine ev pref i n hintent hc]
    rfl
  · intro hf hl
    rw [LF1.handler_cuisine_elicit ev pref i n hintent hf hl hc]
    exact ⟨rfl, rfl⟩

/-- Witness for the amended C7 at a concrete turn with a valid
location and the invalid cuisine "sushi". -/
theorem C7_invalid_cuisine_witness :
    Wit.evBadCui.intentName = "DiningSuggestionsIntent" ∧
    LF1.cuisineInvalid (LF1.trimmedSlot Wit.evBadCui.slots "Cuisine") = true ∧
    (LF1.countEnqueues (LF1.lambda_handler Wit.evBadCui none "u" "t").2 = 0 ∧
     (LF1.reuseFires Wit.evBadCui none = false →
       LF1.locationInvalid (LF1.trimmedSlot Wit.evBadCui.slots "Location") = false →
       (LF1.lambda_handler Wit.evBadCui none "u" "t").1.action
         = LF1.DialogActionType.ElicitSlot "Cuisine" ∧
       (LF1.lambda_handler Wit.evBadCui none "u" "t").1.messages
         = [LF1.cuisineErrorMessage])) :=
  ⟨by decide, by decide,
   C7_invalid_cuisine Wit.evBadCui none "u" "t" (by decide) (by decide)⟩

namespace LF2

theorem map_range_getD {α : Type} (l : List α) (d : α) :
    (List.range l.length).map (fun r => l.getD (r % l.length) d) = l := by
  apply List.ext_getElem
  · simp
  · intro i h1 h2
    simp only [List.getElem_map, List.getElem_range]
    rw [List.getD_eq_getElem?_getD, Nat.mod_eq_of_lt h2,
      List.getElem?_eq_getElem h2]
    rfl

theorem pySample_mem (pop : List String) (k seed : Nat) (h : k ≤ pop.length) :
    pySample pop k seed ∈ List.sublistsLen k pop := by
  unfold pySample
  have hN : 0 < (List.sublistsLen k pop).length := by
    rw [List.length_sublistsLen]; exact Nat.choose_pos h
  have hidx : seed % (List.sublistsLen k pop).length < (List.sublistsLen k pop).length :=
    Nat.mod_lt _ hN
  rw [List.getD_eq_getElem?_getD, List.getElem?_eq_getElem hidx]
  exact List.getElem_mem hidx

theorem pySample_spec (pop : List String) (k seed : Nat) (h : k ≤ pop.length) :
    (pySample pop k seed).length = k ∧ List.Sublist (pySample pop k seed) pop := by
  have hmem := pySample_mem pop k seed h
  rw [List.mem_sublistsLen] at hmem
  exact ⟨hmem.2, hmem.1⟩

theorem count_one_of_nodup_mem {α : Type} [BEq α] [LawfulBEq α] {a : α} {l : List α}
    (hnd : l.Nodup) (hmem : a ∈ l) : List.count a l = 1 := by
  induction l with
  | nil => simp at hmem
  | cons b t ih =>
      rw [List.count_cons]
      rcases List.mem_cons.mp hmem with h | h
      · subst h
        have hnt : a ∉ t := (List.nodup_cons.mp hnd).1
        simp [List.count_eq_zero.mpr hnt]
      · have hbt : b ∉ t := (List.nodup_cons.mp hnd).1
        have hne : ¬(a == b) = true := by
          intro hab
          exact hbt ((eq_of_beq hab) ▸ h)
        rw [ih (List.nodup_cons.mp hnd).2 h]
        simp [hne]
        intro hba
        exact hne (by subst hba; simp)

theorem pySample_uniform (pop : List String) (k : Nat) (hnd : pop.Nodup)
    (c : List String) (hsub : List.Sublist c pop) (hlen : c.length = k) :
    List.count c ((List.range (List.sublistsLen k pop).length).map
      (fun r => pySample pop k r)) = 1 := by
  have hmap : (List.range (List.sublistsLen k pop).length).map
      (fun r => pySample pop k r) = List.sublistsLen k pop := by
    have h0 := map_range_getD (List.sublistsLen k pop) ([] : List String)
    simpa [pySample] using h0
  rw [hmap]
  exact count_one_of_nodup_mem (List.nodup_sublistsLen k hnd)
    (List.mem_sublistsLen.mpr ⟨hsub, hlen⟩)

end LF2

/-- C2: in every worker execution that received a message, the delete
effect occurs only when the send succeeded, and then strictly after
the send effect; when the send step fails, the message is not deleted
and is still present in the queue afterwards. -/
theorem C2_send_then_delete (env : LF2.WEnv) (m : LF2.WMsg) (rest : List LF2.WMsg)
    (hm : env.messages = m :: rest) :
    (LF2.WEffect.deleteMessage m.receiptHandle ∈ (LF2.lambda_handler env).effects →
      env.sendOk = true ∧
      ∃ t x, (LF2.lambda_handler env).effects =
        [LF2.WEffect.sendEmail t x, LF2.WEffect.deleteMessage m.receiptHandle]) ∧
    (env.sendOk = false →
      LF2.WEffect.deleteMessage m.receiptHandle ∉ (LF2.lambda_handler env).effects ∧
      m ∈ LF2.remainingMessages env) := by
  by_cases h3 : env.queryIds.length < 3
  · refine ⟨?_, ?_⟩
    · intro hmem
      simp [LF2.lambda_handler, hm, h3] at hmem
    · intro hs
      refine ⟨?_, ?_⟩
      · intro hmem
        simp [LF2.lambda_handler, hm, h3] at hmem
      · simp [LF2.remainingMessages, LF2.deletedReceipts, LF2.lambda_handler, hm, h3]
  · by_cases hs : env.sendOk = true
    · refine ⟨?_, ?_⟩
      · intro hmem
        refine ⟨hs, ?_, ?_, ?_⟩
        · exact LF2.recipientOf env.testRecipient m.body
        · exact LF2.emailText (LF1.pyStrip (LF1.pyLower (m.body.cuisine.getD "")))
            (LF1.pyStrip (m.body.partySize.getD "N/A"))
            (LF1.pyStrip (m.body.diningTime.getD "N/A"))
            (LF1.pyStrip (m.body.location.getD "Manhattan"))
            ((LF2.batch_get_restaurants env.catalogItems
              (LF2.pySample env.queryIds 3 env.sampleSeed)).map LF2.format_item)
        · simp [LF2.lambda_handler, hm, h3, hs]
      · intro hs'
        rw [hs'] at hs
        simp at hs
    · rw [Bool.not_eq_true] at hs
      refine ⟨?_, ?_⟩
      · intro hmem
        simp [LF2.lambda_handler, hm, h3, hs] at hmem
      · intro _
        refine ⟨?_, ?_⟩
        · intro hmem
          simp [LF2.lambda_handler, hm, h3, hs] at hmem
        · simp [LF2.remainingMessages, LF2.deletedReceipts, LF2.lambda_handler,
            hm, h3, hs]

/-- Witness for C2 at a concrete environment whose send fails. -/
theorem C2_send_then_delete_witness :
    Wit.envSendFail.messages = Wit.msgW :: [] ∧
    ((LF2.WEffect.deleteMessage Wit.msgW.receiptHandle
        ∈ (LF2.lambda_handler Wit.envSendFail).effects →
      Wit.envSendFail.sendOk = true ∧
      ∃ t x, (LF2.lambda_handler Wit.envSendFail).effects =
        [LF2.WEffect.sendEmail t x, LF2.WEffect.deleteMessage Wit.msgW.receiptHandle]) ∧
     (Wit.envSendFail.sendOk = false →
      LF2.WEffect.deleteMessage Wit.msgW.receiptHandle
        ∉ (LF2.lambda_handler Wit.envSendFail).effects ∧
      Wit.msgW ∈ LF2.remainingMessages Wit.envSendFail)) :=
  ⟨rfl, C2_send_then_delete Wit.envSendFail Wit.msgW [] rfl⟩

/-- C3: a worker execution that received a message fails with
InsufficientCandidates exactly when the candidate query returned fewer
than 3 ids, leaving the message in the queue; with at least 3 ids the
chosen sample has exactly 3 ids drawn from the candidate set (distinct
when the candidates are), and over a uniformly distributed seed every
3-element subset of the candidates is chosen equally often (exactly
once per seed range), so the sampling is unbiased toward list order. -/
theorem C3_sampling (env : LF2.WEnv) (m : LF2.WMsg) (rest : List LF2.WMsg)
    (hm : env.messages = m :: rest) :
    ((LF2.lambda_handler env).result.isInsufficient = true ↔
      env.queryIds.length < 3) ∧
    (env.queryIds.length < 3 → m ∈ LF2.remainingMessages env) ∧
    (3 ≤ env.queryIds.length →
      (LF2.chosenIds env).length = 3 ∧
      List.Sublist (LF2.chosenIds env) env.queryIds ∧
      (env.queryIds.Nodup → (LF2.chosenIds env).Nodup) ∧
      ∀ x ∈ LF2.chosenIds env, x ∈ env.queryIds) ∧
    (env.queryIds.Nodup → ∀ c : List String, List.Sublist c env.queryIds →
      c.length = 3 →
      List.count c ((List.range (List.sublistsLen 3 env.queryIds).length).map
        (fun r => LF2.pySample env.queryIds 3 r)) = 1) := by
  refine ⟨?_, ?_, ?_, ?_⟩
  · by_cases h3 : env.queryIds.length < 3
    · simp [LF2.lambda_handler, hm, h3, LF2.WResult.isInsufficient]
    · by_cases hs : env.sendOk = true
      · simp [LF2.lambda_handler, hm, h3, hs, LF2.WResult.isInsufficient]
      · rw [Bool.not_eq_true] at hs
        simp [LF2.lambda_handler, hm, h3, hs, LF2.WResult.isInsufficient]
  · intro h3
    simp [LF2.remainingMessages, LF2.deletedReceipts, LF2.lambda_handler, hm, h3]
  · intro h3
    have hle : 3 ≤ env.queryIds.length := h3
    obtain ⟨hlen, hsub⟩ := LF2.pySample_spec env.queryIds 3 env.sampleSeed hle
    exact ⟨hlen, hsub, fun hnd => List.Nodup.sublist hsub hnd,
      fun x hx => List.Sublist.subset hsub hx⟩
  · intro hnd c hsub hlen
    exact LF2.pySample_uniform env.queryIds 3 hnd c hsub hlen

/-- Witness for C3 at a concrete environment with ten distinct
candidate ids (and, via the first clause, at two ids for the failure
direction through the iff). -/
theorem C3_sampling_witness :
    Wit.envTen.messages = Wit.msgW :: [] ∧
    (((LF2.lambda_handler Wit.envTen).result.isInsufficient = true ↔
       Wit.envTen.queryIds.length < 3) ∧
     (Wit.envTen.queryIds.length < 3 → Wit.msgW ∈ LF2.remainingMessages Wit.envTen) ∧
     (3 ≤ Wit.envTen.queryIds.length →
       (LF2.chosenIds Wit.envTen).length = 3 ∧
       List.Sublist (LF2.chosenIds Wit.envTen) Wit.envTen.queryIds ∧
       (Wit.envTen.queryIds.Nodup → (LF2.chosenIds Wit.envTen).Nodup) ∧
       ∀ x ∈ LF2.chosenIds Wit.envTen, x ∈ Wit.envTen.queryIds) ∧
     (Wit.envTen.queryIds.Nodup → ∀ c : List String,
       List.Sublist c Wit.envTen.queryIds → c.length = 3 →
       List.count c ((List.range (List.sublistsLen 3 Wit.envTen.queryIds).length).map
         (fun r => LF2.pySample Wit.envTen.queryIds 3 r)) = 1)) :=
  ⟨rfl, C3_sampling Wit.envTen Wit.msgW [] rfl⟩

/-- C8: when the worker reaches the catalog step (a message was
received and at least 3 candidate ids came back), missing catalog
records never fail the execution — the run always reaches the send
step; the notification body is built from one formatted line per found
record, in sampled order, with not-found ids silently skipped, so the
email may carry fewer lines than the 3 sampled ids. -/
theorem C8_partial_catalog (env : LF2.WEnv) (m : LF2.WMsg) (rest : List LF2.WMsg)
    (hm : env.messages = m :: rest) (h3 : 3 ≤ env.queryIds.length) :
    ((LF2.lambda_handler env).result
        = LF2.WResult.ok (LF2.recipientOf env.testRecipient m.body) ∨
      (LF2.lambda_handler env).result = LF2.WResult.sendFailed) ∧
    (LF2.lambda_handler env).effects.head? = some (LF2.WEffect.sendEmail
      (LF2.recipientOf env.testRecipient m.body)
      (LF2.emailText (LF1.pyStrip (LF1.pyLower (m.body.cuisine.getD "")))
        (LF1.pyStrip (m.body.partySize.getD "N/A"))
        (LF1.pyStrip (m.body.diningTime.getD "N/A"))
        (LF1.pyStrip (m.body.location.getD "Manhattan"))
        (LF2.emailLines env))) ∧
    (∀ it ∈ LF2.batch_get_restaurants env.catalogItems (LF2.chosenIds env),
      ∃ rid ∈ LF2.chosenIds env, LF2.byId env.catalogItems rid = some it) ∧
    (LF2.emailLines env).length ≤ (LF2.chosenIds env).length ∧
    (LF2.chosenIds env).length = 3 := by
  have hnlt : ¬ env.queryIds.length < 3 := not_lt.mpr h3
  refine ⟨?_, ?_, ?_, ?_, ?_⟩
  · by_cases hs : env.sendOk = true
    · left; simp [LF2.lambda_handler, hm, hnlt, hs]
    · right
      rw [Bool.not_eq_true] at hs
      simp [LF2.lambda_handler, hm, hnlt, hs]
  · by_cases hs : env.sendOk = true
    · simp [LF2.lambda_handler, hm, hnlt, hs, LF2.emailLines, LF2.chosenIds]
    · rw [Bool.not_eq_true] at hs
      simp [LF2.lambda_handler, hm, hnlt, hs, LF2.emailLines, LF2.chosenIds]
  · intro it hit
    exact List.mem_filterMap.mp hit
  · unfold LF2.emailLines LF2.batch_get_restaurants
    rw [List.length_map]
    exact List.length_filterMap_le _ _
  · exact (LF2.pySample_spec env.queryIds 3 env.sampleSeed h3).1

/-- Witness for C8 at a concrete environment whose catalog returns no
records: the run still succeeds and the email has fewer than 3 lines. -/
theorem C8_partial_catalog_witness :
    Wit.envEmptyCatalog.messages = Wit.msgW :: [] ∧
    3 ≤ Wit.envEmptyCatalog.queryIds.length ∧
    (LF2.emailLines Wit.envEmptyCatalog).length < 3 ∧
    (((LF2.lambda_handler Wit.envEmptyCatalog).result
        = LF2.WResult.ok (LF2.recipientOf Wit.envEmptyCatalog.testRecipient Wit.msgW.body) ∨
      (LF2.lambda_handler Wit.envEmptyCatalog).result = LF2.WResult.sendFailed) ∧
     (LF2.lambda_handler Wit.envEmptyCatalog).effects.head? = some (LF2.WEffect.sendEmail
       (LF2.recipientOf Wit.envEmptyCatalog.testRecipient Wit.msgW.body)
       (LF2.emailText (LF1.pyStrip (LF1.pyLower (Wit.msgW.body.cuisine.getD "")))
         (LF1.pyStrip (Wit.msgW.body.partySize.getD "N/A"))
         (LF1.pyStrip (Wit.msgW.body.diningTime.getD "N/A"))
         (LF1.pyStrip (Wit.msgW.body.location.getD "Manhattan"))
         (LF2.emailLines Wit.envEmptyCatalog))) ∧
     (∀ it ∈ LF2.batch_get_restaurants Wit.envEmptyCatalog.catalogItems
         (LF2.chosenIds Wit.envEmptyCatalog),
       ∃ rid ∈ LF2.chosenIds Wit.envEmptyCatalog,
         LF2.byId Wit.envEmptyCatalog.catalogItems rid = some it) ∧
     (LF2.emailLines Wit.envEmptyCatalog).length
       ≤ (LF2.chosenIds Wit.envEmptyCatalog).length ∧
     (LF2.chosenIds Wit.envEmptyCatalog).length = 3) :=
  ⟨rfl, by decide, by decide,
   C8_partial_catalog Wit.envEmptyCatalog Wit.msgW [] rfl (by decide)⟩

/-- C10 counterexample: with `TEST_RECIPIENT` set to the empty string
(so set, but empty), the worker sends to the request's own email
address even though the variable is set, refuting "the request's own
email is used as the recipient only when TEST_RECIPIENT is unset". -/
theorem C10_counterexample :
    Wit.envEmptyTest.testRecipient = some "" ∧
    Wit.envEmptyTest.testRecipient ≠ none ∧
    Wit.msgW.body.email = some "a@b.com" ∧
    (LF2.lambda_handler Wit.envEmptyTest).result = LF2.WResult.ok "a@b.com" := by
  decide

/-- C10 (amended): the notification recipient is the trimmed
`TEST_RECIPIENT` value whenever that variable is set and non-empty,
overriding the payload email; the request's own (trimmed) email is the
recipient when `TEST_RECIPIENT` is unset or empty; a successful run's
result carries exactly that recipient. -/
theorem C10_recipient (env : LF2.WEnv) (m : LF2.WMsg) (rest : List LF2.WMsg)
    (hm : env.messages = m :: rest) :
    (LF1.pyTruthy env.testRecipient = true →
      LF2.recipientOf env.testRecipient m.body
        = LF1.pyStrip (env.testRecipient.getD "")) ∧
    (LF1.pyTruthy env.testRecipient = false →
      LF2.recipientOf env.testRecipient m.body
        = LF1.pyStrip (m.body.email.getD "")) ∧
    (3 ≤ env.queryIds.length → env.sendOk = true →
      (LF2.lambda_handler env).result
        = LF2.WResult.ok (LF2.recipientOf env.testRecipient m.body)) := by
  refine ⟨?_, ?_, ?_⟩
  · intro ht
    unfold LF2.recipientOf
    rw [ht]
    simp
  · intro ht
    unfold LF2.recipientOf
    rw [ht]
    simp
  · intro h3 hs
    simp [LF2.lambda_handler, hm, not_lt.mpr h3, hs]

/-- Witness for the amended C10 at a concrete environment with a set,
non-empty `TEST_RECIPIENT`. -/
theorem C10_recipient_witness :
    Wit.envTestSet.messages = Wit.msgW :: [] ∧
    ((LF1.pyTruthy Wit.envTestSet.testRecipient = true →
       LF2.recipientOf Wit.envTestSet.testRecipient Wit.msgW.body
         = LF1.pyStrip (Wit.envTestSet.testRecipient.getD "")) ∧
     (LF1.pyTruthy Wit.envTestSet.testRecipient = false →
       LF2.recipientOf Wit.envTestSet.testRecipient Wit.msgW.body
         = LF1.pyStrip (Wit.msgW.body.email.getD "")) ∧
     (3 ≤ Wit.envTestSet.queryIds.length → Wit.envTestSet.sendOk = true →
       (LF2.lambda_handler Wit.envTestSet).result
         = LF2.WResult.ok (LF2.recipientOf Wit.envTestSet.testRecipient Wit.msgW.body))) :=
  ⟨rfl, C10_recipient Wit.envTestSet Wit.msgW [] rfl⟩
